import Mathlib

/-!
Shallow embedding of `src/timerfd.c` (luasocket timerfd module).

The embedding follows the C source line by line:

* `tfd_set_timeout` (timerfd.c:74-101) — deadline arithmetic: converts a
  fractional-second delay and interval to milliseconds, builds the absolute
  `itimerspec`, and normalizes nanoseconds with carry loops.
* `meth_settimeout` (timerfd.c:127-143) — the Lua-facing re-arm entry point.
* `meth_close` (timerfd.c:115-121) — close method.
* `tfd_read` (timerfd.c:149-172) — the receive callback bridging the timerfd
  expiration counter into the buffered-I/O `p_recv` shape.
* `global_create` (timerfd.c:177-212) — the module's constructor.

Numbers: C `uint64_t ms` is modelled as `Nat` (the values reachable here stay
far below `2^64`, so wraparound never occurs); `tv_sec`/`tv_nsec` of
`struct timespec` are modelled as `Nat` (the monotonic clock yields
non-negative components and the arithmetic only adds).  The C `double`
arguments are modelled as `ℚ`; the C cast `(uint64_t)d` truncates toward zero
for non-negative values (= floor) and is undefined behaviour for negative
values — the model clamps negatives to `0`, which is what the claims about
non-positive delays exercise.  The external helpers that live elsewhere in
the repository or in the platform (`socket_destroy`, the `IO_*` status codes,
`timerfd_settime`) are modelled from the spec, as noted on each definition.
-/

namespace Timerfd

/-- The invalid-descriptor sentinel. Modelled from the spec (§3): `descriptor`
holds a sentinel "invalid" value when closed; in the C headers this is
`SOCKET_INVALID = -1`. -/
def SOCKET_INVALID : Int := -1

/-- The platform code for an interrupted system call (`errno == EINTR`). -/
def EINTR : Nat := 4

/-- Modelled from the spec (§4.1): the "done" status returned by a successful
read.  In the repository's `io.h` (not under `src/`) this is `IO_DONE = 0`. -/
def IO_DONE : Int := 0

/-- Modelled from the spec (§7): the distinct "closed" status reported when an
operation runs on a released handle.  In the repository's `io.h` (not under
`src/`) this is `IO_CLOSED = -2`. -/
def IO_CLOSED : Int := -2

/-- `struct timespec`: seconds plus nanoseconds.  Components are `Nat`
(monotonic-clock values are non-negative; `clock_gettime` yields
`tv_nsec ∈ [0, 10^9)`, stated as a hypothesis where a theorem needs it). -/
@[ext]
structure Timespec where
  tv_sec : Nat
  tv_nsec : Nat
deriving DecidableEq

/-- `struct itimerspec`: the repeat interval and the absolute first-expiration
time handed to `timerfd_settime`. -/
@[ext]
structure Itimerspec where
  it_interval : Timespec
  it_value : Timespec
deriving DecidableEq

/-- The C carry loop
`while (nsec >= 1000000000) { nsec -= 1000000000; sec += 1; }`
from timerfd.c:86-89 and timerfd.c:95-98, as a function of the pair it
mutates: the nanosecond cell and the seconds cell the carry is added to.
Returns the final `(nsec, sec)`. -/
def normLoop (nsec sec : Nat) : Nat × Nat :=
  if h : 1000000000 ≤ nsec then normLoop (nsec - 1000000000) (sec + 1)
  else (nsec, sec)
termination_by nsec
decreasing_by omega

/-- The conversion `ms = sec * 1000` at timerfd.c:80/91: a C `double` cast to
`uint64_t`, which truncates toward zero (= floor on non-negative values;
negative values are undefined behaviour in C and clamp to `0` here). -/
def msOfSec (q : ℚ) : Nat := (⌊q * 1000⌋).toNat

/-- `tfd_set_timeout` (timerfd.c:74-101) with the monotonic-clock sample
`now` passed explicitly (the C code obtains it via `clock_gettime` at
timerfd.c:82).  Mirrors the source statement by statement:
`it_value = now + ms`, normalized by the first carry loop; when the interval
milliseconds are strictly positive, `it_interval` is filled in and its carry
loop adds into `it_value.tv_sec` (timerfd.c:97), not `it_interval.tv_sec`. -/
def tfd_set_timeout (now : Timespec) (sec eps : ℚ) : Itimerspec :=
  let ms : Nat := msOfSec sec
  let p := normLoop (now.tv_nsec + ms % 1000 * 1000000) (now.tv_sec + ms / 1000)
  let ims : Nat := msOfSec eps
  if 0 < ims then
    let q := normLoop (ims % 1000 * 1000000) p.2
    { it_interval := ⟨ims / 1000, q.1⟩, it_value := ⟨q.2, p.1⟩ }
  else
    { it_interval := ⟨0, 0⟩, it_value := ⟨p.2, p.1⟩ }

theorem normLoop_eq (nsec sec : Nat) :
    normLoop nsec sec = (nsec % 1000000000, sec + nsec / 1000000000) := by
  induction nsec using Nat.strong_induction_on generalizing sec with
  | _ nsec ih =>
    rw [normLoop]
    split
    · rw [ih (nsec - 1000000000) (by omega)]
      simp only [Prod.mk.injEq]
      omega
    · simp only [Prod.mk.injEq]
      omega

/-- The deadline half of `tfd_set_timeout`, in closed form: the interval
computation never changes it (its carry loop adds `(ims % 1000 * 10^6) / 10^9
= 0` seconds). -/
theorem tfd_set_timeout_it_value (now : Timespec) (sec eps : ℚ) :
    (tfd_set_timeout now sec eps).it_value =
      ⟨now.tv_sec + msOfSec sec / 1000 +
        (now.tv_nsec + msOfSec sec % 1000 * 1000000) / 1000000000,
       (now.tv_nsec + msOfSec sec % 1000 * 1000000) % 1000000000⟩ := by
  unfold tfd_set_timeout
  simp only [normLoop_eq]
  split
  · simp only [Timespec.mk.injEq]
    constructor
    · have : msOfSec eps % 1000 * 1000000 < 1000000000 := by omega
      omega
    · trivial
  · rfl

/-- The kernel timer state behind one timerfd descriptor: `none` when
disarmed, `some spec` when armed with deadline `spec.it_value` (absolute)
and repeat interval `spec.it_interval`. -/
structure KernelTimer where
  armed : Option Itimerspec
deriving DecidableEq

/-- Modelled from the spec (§1, §2): the kernel facility behind the module
("once armed, becomes readable at a caller-specified absolute deadline").
`timerfd_settime(fd, TFD_TIMER_ABSTIME, &spec, NULL)` replaces the timer's
programming with `spec`; per the platform contract, an `it_value` of
`(0, 0)` disarms the timer, and any other `it_value` arms it at that
absolute time. -/
def timerfd_settime (spec : Itimerspec) : KernelTimer :=
  if spec.it_value = ⟨0, 0⟩ then ⟨none⟩ else ⟨some spec⟩

/-- Ordering on `timespec` values: `a` is at or before `b`. -/
def tsLe (a b : Timespec) : Bool :=
  a.tv_sec < b.tv_sec || (a.tv_sec == b.tv_sec && a.tv_nsec ≤ b.tv_nsec)

/-- Modelled from the spec (§2, §5): "the descriptor becomes readable once per
expiration"; an armed timer whose absolute deadline is at or before the
current time `t` has an expiration pending (it fires immediately when the
deadline is already in the past). -/
def expirationPending (st : KernelTimer) (t : Timespec) : Bool :=
  match st.armed with
  | none => false
  | some spec => tsLe spec.it_value t

/-- The timerfd userdata: of the `t_unix` fields only the descriptor `sock`
is touched by the operations under study (`io`/`tm`/`buf` configure the
generic buffered-I/O layer, outside this module). -/
structure LuaTimerfd where
  sock : Int
deriving DecidableEq

/-- What one `meth_settimeout` call produces: the kernel timer state
afterwards, the `itimerspec` values passed to `timerfd_settime` during the
call (empty = no kernel call), and the number of Lua results pushed
(`meth_settimeout` always returns 0 values; errors would be raised, never
returned). -/
structure SettimeoutOut where
  state : KernelTimer
  kernelCalls : List Itimerspec
  numResults : Nat
deriving DecidableEq

/-- `meth_settimeout` (timerfd.c:127-143).  The closed-handle check
`un->sock == SOCKET_INVALID` happens before the arguments are even read;
`arg3 = none` models a call without the third stack argument, in which case
`itv = eps` (timerfd.c:138).  `st` is the kernel timer state before the
call; `now` is the clock sample `tfd_set_timeout` would take. -/
def meth_settimeout (un : LuaTimerfd) (now : Timespec) (eps : ℚ)
    (arg3 : Option ℚ) (st : KernelTimer) : SettimeoutOut :=
  if un.sock = SOCKET_INVALID then ⟨st, [], 0⟩
  else
    let itv := arg3.getD eps
    let spec := tfd_set_timeout now eps itv
    ⟨timerfd_settime spec, [spec], 0⟩

/-- Modelled from the spec (§4.1 close): `socket_destroy` lives in the
repository's `usocket.c`, not under `src/`; it "releases the kernel resource
if currently live, sets `descriptor` to the invalid sentinel".  Returns the
new descriptor value and whether a kernel `close` was issued. -/
def socket_destroy (sock : Int) : Int × Bool :=
  if sock ≠ SOCKET_INVALID then (SOCKET_INVALID, true) else (sock, false)

/-- `meth_close` (timerfd.c:115-121): destroys the socket and pushes the
number `1` (success) as its single Lua result. -/
def meth_close (un : LuaTimerfd) : LuaTimerfd × Int :=
  (⟨(socket_destroy un.sock).1⟩, 1)

/-- One outcome of the underlying `read(2)` on the timerfd: success always
delivers the full 8-byte expiration counter `v` (< 2^64), failure delivers
`errno = e` with return value `-1`. -/
inductive KRes where
  | ok (v : Nat)
  | err (e : Nat)
deriving DecidableEq

/-- What one `tfd_read` call produces: the C return value `ret`
(`IO_DONE`, `IO_CLOSED`, or a positive `errno`), the value stored to
`*got` (`none` when the C code leaves `*got` unwritten), and the caller's
buffer contents afterwards. -/
structure TfdReadOut where
  ret : Int
  got : Option Nat
  buf : List Nat
deriving DecidableEq

/-- The first `n` bytes of the in-memory representation of the 64-bit
counter `v` on a little-endian host: its `n` low-order bytes. -/
def toLEBytes (v n : Nat) : List Nat :=
  (List.range n).map fun i => v / 256 ^ i % 256

/-- Overwrite the front of the caller's buffer with freshly read bytes,
leaving the tail untouched. -/
def writeBytes (buf0 bs : List Nat) : List Nat :=
  bs ++ buf0.drop bs.length

/-- The `do { ... } while (len == -1 && errno == EINTR)` loop of `tfd_read`
(timerfd.c:156-165) together with the lines after it, driven by the list
`rs` of successive kernel `read` outcomes.  `none` means the supplied
outcomes were exhausted while still retrying (the C loop would still be
running).  In the `count >= sizeof v` branch the 8 counter bytes land
directly in the caller's buffer; otherwise the counter is read into the
scratch `v` and `memcpy(data, &v, count)` copies only `count` bytes — yet
`*got = len` stores the kernel read length (8), not `count`
(timerfd.c:170). -/
def tfd_read_loop (buf0 : List Nat) (count : Nat) : List KRes → Option TfdReadOut
  | [] => none
  | KRes.err e :: rest =>
      if e = EINTR then tfd_read_loop buf0 count rest
      else some ⟨(e : Int), none, buf0⟩
  | KRes.ok v :: _ =>
      if 8 ≤ count then some ⟨IO_DONE, some 8, writeBytes buf0 (toLEBytes v 8)⟩
      else some ⟨IO_DONE, some 8, writeBytes buf0 (toLEBytes v count)⟩

/-- `tfd_read` (timerfd.c:149-172): the `p_recv` callback installed by
`global_create`.  A closed descriptor short-circuits to `IO_CLOSED` before
any kernel call, leaving `*got` and the buffer untouched. -/
def tfd_read (sock : Int) (buf0 : List Nat) (count : Nat)
    (rs : List KRes) : Option TfdReadOut :=
  if sock = SOCKET_INVALID then some ⟨IO_CLOSED, none, buf0⟩
  else tfd_read_loop buf0 count rs

/-- Whether a `tfd_read` outcome hands the interrupted-system-call code
back to the caller. -/
def surfacedEINTR (o : Option TfdReadOut) : Bool :=
  match o with
  | some out => out.ret == (EINTR : Int)
  | none => false

/-- What `global_create` (timerfd.c:177-212) returns to Lua: on a failed
`timerfd_create`, the triple `nil, socket_strerror(errno), errno` (three Lua
results); on success, the new userdata alone (one Lua result), paired here
with the kernel timer state it leaves behind. -/
inductive CreateResult where
  | err (errno : Nat)
  | ok (handle : LuaTimerfd) (st : KernelTimer)
deriving DecidableEq

/-- Number of Lua values each `global_create` outcome pushes. -/
def numLuaResults : CreateResult → Nat
  | CreateResult.err _ => 3
  | CreateResult.ok _ _ => 1

/-- `global_create` (timerfd.c:177-212).  `arg2 = none` models a call
without the second stack argument, in which case `itv = eps`
(timerfd.c:184).  `kfd`/`kerrno` are the result of the `timerfd_create`
call (descriptor, or `-1` with `errno` set); `now` is the clock sample the
nested `tfd_set_timeout` would take.  The timer is armed only when
`eps > 0.0` (timerfd.c:208); no timestamp of any kind is captured or
returned. -/
def global_create (eps : ℚ) (arg2 : Option ℚ) (now : Timespec)
    (kfd : Int) (kerrno : Nat) : CreateResult :=
  let itv := arg2.getD eps
  if kfd < 0 then CreateResult.err kerrno
  else
    CreateResult.ok ⟨kfd⟩
      (if 0 < eps then timerfd_settime (tfd_set_timeout now eps itv)
       else ⟨none⟩)

/-- The deadline's seconds cell of `tfd_set_timeout`, in closed form. -/
theorem tfd_set_timeout_tv_sec (now : Timespec) (sec eps : ℚ) :
    (tfd_set_timeout now sec eps).it_value.tv_sec =
      now.tv_sec + msOfSec sec / 1000 +
        (now.tv_nsec + msOfSec sec % 1000 * 1000000) / 1000000000 := by
  rw [tfd_set_timeout_it_value]

/-- The deadline's nanoseconds cell of `tfd_set_timeout`, in closed form. -/
theorem tfd_set_timeout_tv_nsec (now : Timespec) (sec eps : ℚ) :
    (tfd_set_timeout now sec eps).it_value.tv_nsec =
      (now.tv_nsec + msOfSec sec % 1000 * 1000000) % 1000000000 := by
  rw [tfd_set_timeout_it_value]

/-- The interval half of `tfd_set_timeout`, in closed form. -/
theorem tfd_set_timeout_it_interval (now : Timespec) (sec eps : ℚ) :
    (tfd_set_timeout now sec eps).it_interval =
      if 0 < msOfSec eps then
        ⟨msOfSec eps / 1000, msOfSec eps % 1000 * 1000000 % 1000000000⟩
      else ⟨0, 0⟩ := by
  unfold tfd_set_timeout
  simp only [normLoop_eq]
  split <;> rfl

/-- A non-positive fractional-second argument converts to zero milliseconds. -/
theorem msOfSec_nonpos {q : ℚ} (h : q ≤ 0) : msOfSec q = 0 := by
  unfold msOfSec
  have h1 : (q * 1000 : ℚ) ≤ 0 := by
    have := mul_le_mul_of_nonneg_right h (by norm_num : (0 : ℚ) ≤ 1000)
    simpa using this
  exact Int.toNat_of_nonpos (Int.floor_nonpos h1)

/-- Claim C1: for every non-negative delay and every monotonic-clock sample
`now` with `tv_nsec ∈ [0, 10^9)`, the armed deadline `it_value` computed by
`tfd_set_timeout` has a nanosecond component in `[0, 10^9)`, its seconds
component absorbs all carries, and the pair represents exactly
`now` plus `floor(delaySeconds * 1000)` milliseconds. -/
theorem C1_deadline_exact (now : Timespec) (sec eps : ℚ)
    (hsec : 0 ≤ sec) (hns : now.tv_nsec < 1000000000) :
    (tfd_set_timeout now sec eps).it_value.tv_nsec < 1000000000 ∧
    (tfd_set_timeout now sec eps).it_value.tv_sec * 1000000000 +
        (tfd_set_timeout now sec eps).it_value.tv_nsec =
      now.tv_sec * 1000000000 + now.tv_nsec + msOfSec sec * 1000000 ∧
    (msOfSec sec : Int) = ⌊sec * 1000⌋ := by
  refine ⟨?_, ?_, ?_⟩
  · rw [tfd_set_timeout_tv_nsec]
    omega
  · rw [tfd_set_timeout_tv_sec, tfd_set_timeout_tv_nsec]
    omega
  · unfold msOfSec
    exact Int.toNat_of_nonneg
      (Int.floor_nonneg.mpr (mul_nonneg hsec (by norm_num)))

/-- Claim C1 witness: the theorem instantiated at `now = (5 s, 999999999 ns)`
and a delay of `3/2` seconds (the deadline carries into second `7`). -/
theorem C1_witness :
    (tfd_set_timeout ⟨5, 999999999⟩ (3 / 2) 0).it_value.tv_nsec < 1000000000 ∧
    (tfd_set_timeout ⟨5, 999999999⟩ (3 / 2) 0).it_value.tv_sec * 1000000000 +
        (tfd_set_timeout ⟨5, 999999999⟩ (3 / 2) 0).it_value.tv_nsec =
      (⟨5, 999999999⟩ : Timespec).tv_sec * 1000000000 +
        (⟨5, 999999999⟩ : Timespec).tv_nsec + msOfSec (3 / 2) * 1000000 ∧
    (msOfSec (3 / 2) : Int) = ⌊(3 / 2 : ℚ) * 1000⌋ :=
  C1_deadline_exact ⟨5, 999999999⟩ (3 / 2) 0 (by norm_num) (by norm_num)

/-- Claim C3: a strictly positive interval undergoes the same millisecond
conversion (`it_interval.tv_sec = ims / 1000`) and normalization
(`it_interval.tv_nsec` is the converted nanoseconds reduced mod `10^9`) as
the deadline, and the carry produced while normalizing the interval —
`(ims mod 1000 · 10^6) / 10^9` seconds — is added to the deadline's
`it_value.tv_sec`, never to `it_interval.tv_sec`. -/
theorem C3_interval_carries_into_deadline (now : Timespec) (sec eps : ℚ)
    (heps : 0 < eps) :
    (tfd_set_timeout now sec eps).it_interval.tv_sec = msOfSec eps / 1000 ∧
    (tfd_set_timeout now sec eps).it_interval.tv_nsec =
      msOfSec eps % 1000 * 1000000 % 1000000000 ∧
    (tfd_set_timeout now sec eps).it_value.tv_sec =
      (tfd_set_timeout now sec 0).it_value.tv_sec +
        msOfSec eps % 1000 * 1000000 / 1000000000 := by
  refine ⟨?_, ?_, ?_⟩
  · rw [tfd_set_timeout_it_interval]
    split <;> dsimp only <;> omega
  · rw [tfd_set_timeout_it_interval]
    split <;> dsimp only <;> omega
  · rw [tfd_set_timeout_tv_sec, tfd_set_timeout_tv_sec]
    omega

/-- Claim C3 witness: the theorem instantiated at `now = (10 s, 123 ns)`,
delay `1` second, interval `2` seconds. -/
theorem C3_witness :
    (tfd_set_timeout ⟨10, 123⟩ 1 2).it_interval.tv_sec = msOfSec 2 / 1000 ∧
    (tfd_set_timeout ⟨10, 123⟩ 1 2).it_interval.tv_nsec =
      msOfSec 2 % 1000 * 1000000 % 1000000000 ∧
    (tfd_set_timeout ⟨10, 123⟩ 1 2).it_value.tv_sec =
      (tfd_set_timeout ⟨10, 123⟩ 1 0).it_value.tv_sec +
        msOfSec 2 % 1000 * 1000000 / 1000000000 :=
  C3_interval_carries_into_deadline ⟨10, 123⟩ 1 2 (by norm_num)

/-- Claim C10: the interval's converted nanoseconds `(ims mod 1000) · 10^6`
are at most `999 · 10^6 < 10^9`, so the interval carry loop never runs
(`normLoop` returns its arguments unchanged on such input), the interval's
nanosecond cell is already in `[0, 10^9)`, and the interval computation
never changes the deadline's seconds cell. -/
theorem C10_interval_carry_loop_unreachable (now : Timespec) (sec eps : ℚ) :
    (tfd_set_timeout now sec eps).it_interval.tv_nsec < 1000000000 ∧
    (tfd_set_timeout now sec eps).it_value.tv_sec =
      (tfd_set_timeout now sec 0).it_value.tv_sec ∧
    ∀ ims dsec : Nat,
      normLoop (ims % 1000 * 1000000) dsec = (ims % 1000 * 1000000, dsec) := by
  refine ⟨?_, ?_, ?_⟩
  · rw [tfd_set_timeout_it_interval]
    split <;> dsimp only <;> omega
  · rw [tfd_set_timeout_tv_sec, tfd_set_timeout_tv_sec]
  · intro ims dsec
    rw [normLoop_eq]
    simp only [Prod.mk.injEq]
    omega

/-- Claim C6 counterexample: re-arming an open handle (descriptor 3) with
delay `0` at monotonic time `(100 s, 0 ns)` does not cancel the timer.
`tfd_set_timeout` sets `it_value = now = (100, 0) ≠ (0, 0)`, so
`timerfd_settime` arms the timer at that already-reached absolute deadline:
afterwards the timer is armed (not disarmed) and an expiration is pending
immediately — refuting "the timer is disarmed and no further expiration
becomes pending". -/
theorem C6_counterexample :
    (meth_settimeout ⟨3⟩ ⟨100, 0⟩ 0 none ⟨some ⟨⟨0, 0⟩, ⟨50, 0⟩⟩⟩).state.armed =
        some ⟨⟨0, 0⟩, ⟨100, 0⟩⟩ ∧
      expirationPending
          (meth_settimeout ⟨3⟩ ⟨100, 0⟩ 0 none ⟨some ⟨⟨0, 0⟩, ⟨50, 0⟩⟩⟩).state
          ⟨100, 0⟩ = true := by
  have h0 : msOfSec (0 : ℚ) = 0 := by norm_num [msOfSec]
  constructor
  · simp [meth_settimeout, SOCKET_INVALID, timerfd_settime, tfd_set_timeout, h0,
      normLoop_eq]
  · simp [meth_settimeout, SOCKET_INVALID, timerfd_settime, tfd_set_timeout, h0,
      normLoop_eq, expirationPending, tsLe]

/-- Claim C6 (amended): re-arming an open handle with a delay of zero or
negative (the C cast turns any non-positive delay into `0` milliseconds)
and a non-positive effective interval does not cancel the timer; it arms it
with the absolute deadline set to the current time (one-shot), so an
expiration is pending immediately.  (Disarming would require passing
`it_value = (0, 0)`, which never happens while the monotonic clock is
nonzero.) -/
theorem C6_amended_zero_delay_arms_immediately (s : Int) (now : Timespec)
    (eps : ℚ) (arg3 : Option ℚ) (st : KernelTimer)
    (hs : s ≠ SOCKET_INVALID) (hns : now.tv_nsec < 1000000000)
    (hnz : now ≠ (⟨0, 0⟩ : Timespec)) (heps : eps ≤ 0)
    (hitv : arg3.getD eps ≤ 0) :
    (meth_settimeout ⟨s⟩ now eps arg3 st).state.armed = some ⟨⟨0, 0⟩, now⟩ ∧
    expirationPending (meth_settimeout ⟨s⟩ now eps arg3 st).state now = true := by
  have hm : msOfSec eps = 0 := msOfSec_nonpos heps
  have hi : msOfSec (arg3.getD eps) = 0 := msOfSec_nonpos hitv
  have hval : (tfd_set_timeout now eps (arg3.getD eps)).it_value = now := by
    rw [tfd_set_timeout_it_value, hm]
    obtain ⟨a, b⟩ := now
    dsimp only at hns ⊢
    simp only [Timespec.mk.injEq]
    omega
  have hintv : (tfd_set_timeout now eps (arg3.getD eps)).it_interval = ⟨0, 0⟩ := by
    rw [tfd_set_timeout_it_interval, hi]
    simp
  have harm : tfd_set_timeout now eps (arg3.getD eps) = ⟨⟨0, 0⟩, now⟩ :=
    Itimerspec.ext hintv hval
  have hstate : (meth_settimeout ⟨s⟩ now eps arg3 st).state =
      ⟨some ⟨⟨0, 0⟩, now⟩⟩ := by
    unfold meth_settimeout
    dsimp only
    rw [if_neg hs, harm]
    unfold timerfd_settime
    dsimp only
    rw [if_neg hnz]
  rw [hstate]
  exact ⟨rfl, by simp [expirationPending, tsLe]⟩

/-- Claim C6 witness for the amended statement: descriptor 3, delay `0`, no
interval argument, previously disarmed timer, clock at `(100 s, 0 ns)`. -/
theorem C6_witness :
    (meth_settimeout ⟨3⟩ ⟨100, 0⟩ 0 none ⟨none⟩).state.armed =
        some ⟨⟨0, 0⟩, ⟨100, 0⟩⟩ ∧
      expirationPending (meth_settimeout ⟨3⟩ ⟨100, 0⟩ 0 none ⟨none⟩).state
        ⟨100, 0⟩ = true :=
  C6_amended_zero_delay_arms_immediately 3 ⟨100, 0⟩ 0 none ⟨none⟩ (by decide)
    (by decide) (by decide) (by norm_num) (le_refl 0)

/-- Claim C7: `meth_settimeout` on a handle whose descriptor is the invalid
sentinel returns before touching anything: the kernel timer state is
unchanged, no `timerfd_settime` call is made, and zero Lua results (hence no
error) are returned — for every delay, interval argument, clock sample and
prior timer state. -/
theorem C7_settimeout_closed_noop (now : Timespec) (eps : ℚ)
    (arg3 : Option ℚ) (st : KernelTimer) :
    meth_settimeout ⟨SOCKET_INVALID⟩ now eps arg3 st = ⟨st, [], 0⟩ := by
  simp [meth_settimeout]

/-- After any single `meth_close`, the descriptor is the invalid sentinel. -/
theorem meth_close_sock (un : LuaTimerfd) :
    (meth_close un).1.sock = SOCKET_INVALID := by
  unfold meth_close socket_destroy
  split <;> simp_all

/-- Claim C5: iterating `meth_close` any positive number of times leaves the
descriptor at the invalid sentinel, and every single call — including the
`(n+1)`-st on an already-closed handle — pushes the number `1`, i.e. reports
success. -/
theorem C5_close_idempotent (un : LuaTimerfd) (n : Nat) :
    ((fun h => (meth_close h).1)^[n + 1] un).sock = SOCKET_INVALID ∧
    (meth_close ((fun h => (meth_close h).1)^[n] un)).2 = 1 := by
  constructor
  · induction n with
    | zero => exact meth_close_sock un
    | succ k ih =>
      rw [Function.iterate_succ_apply']
      exact meth_close_sock _
  · rfl

/-- Claim C8: on a closed handle, `tfd_read` returns the distinct `IO_CLOSED`
status before any kernel read, for every buffer, requested size and kernel
behaviour; `*got` is left unwritten and the caller's buffer is untouched
(zero bytes produced). -/
theorem C8_read_closed (buf0 : List Nat) (count : Nat) (rs : List KRes) :
    tfd_read SOCKET_INVALID buf0 count rs = some ⟨IO_CLOSED, none, buf0⟩ := by
  simp [tfd_read]

/-- Claim C9: `tfd_read` never hands `EINTR` back to the caller — a kernel
read failing with `EINTR` is consumed by the retry loop (second conjunct),
so the outcome is only ever the closed status, a successful byte count, or
a non-interrupt error code (first conjunct). -/
theorem C9_eintr_never_surfaced (sock : Int) (buf0 : List Nat) (count : Nat)
    (rs : List KRes) :
    surfacedEINTR (tfd_read sock buf0 count rs) = false ∧
    tfd_read_loop buf0 count (KRes.err EINTR :: rs) =
      tfd_read_loop buf0 count rs := by
  constructor
  · unfold tfd_read
    split
    · simp [surfacedEINTR, IO_CLOSED, EINTR]
    · induction rs with
      | nil => simp [tfd_read_loop, surfacedEINTR]
      | cons r rest ih =>
        cases r with
        | ok v =>
          unfold tfd_read_loop
          split <;> simp [surfacedEINTR, IO_DONE, EINTR]
        | err e =>
          unfold tfd_read_loop
          split
          · exact ih
          · rename_i hne
            have h4 : (e : Int) ≠ ((EINTR : Nat) : Int) := by
              exact_mod_cast hne
            simp [surfacedEINTR, h4]
  · simp [tfd_read_loop]

/-- Claim C2 at its failing input (the code slip): open handle (descriptor
3), a 4-byte buffer (`maxBytes = 4 < 8`), and one successful kernel read
delivering the counter `0x0807060504030201`.  The code copies only the 4
low-order counter bytes `[1, 2, 3, 4]` into the buffer — the truncation
half of the claim — but stores the kernel read length into `*got`, so it
reports 8 bytes produced, not `maxBytes = 4` as claimed (timerfd.c:170
sets `*got = len` in both branches). -/
theorem C2_truncated_read_reports_len :
    tfd_read 3 [0, 0, 0, 0] 4 [KRes.ok 578437695752307201] =
      some ⟨IO_DONE, some 8, [1, 2, 3, 4]⟩ := by
  simp [tfd_read, tfd_read_loop, SOCKET_INVALID, EINTR, IO_DONE, writeBytes,
    toLEBytes, List.range_succ]

/-- Claim C4 counterexample: a successful creation (`timerfd_create` returns
descriptor 3) with initial delay 1 s pushes exactly one Lua result — the
handle — not two; no start timestamp accompanies it. -/
theorem C4_counterexample :
    numLuaResults (global_create 1 none ⟨100, 0⟩ 3 0) = 1 ∧
    ¬numLuaResults (global_create 1 none ⟨100, 0⟩ 3 0) = 2 := by
  constructor <;> norm_num [global_create, numLuaResults]

/-- Claim C4 (amended): on successful creation (`timerfd_create` returned a
non-negative descriptor), `global_create` returns exactly one result to the
caller — the new handle (with the timer armed behind it when the initial
delay is positive).  It does not capture a creation timestamp and does not
return a start time. -/
theorem C4_create_success_single_result (eps : ℚ) (arg2 : Option ℚ)
    (now : Timespec) (kfd : Int) (kerrno : Nat) (hfd : 0 ≤ kfd) :
    numLuaResults (global_create eps arg2 now kfd kerrno) = 1 ∧
    ∃ st : KernelTimer,
      global_create eps arg2 now kfd kerrno = CreateResult.ok ⟨kfd⟩ st := by
  unfold global_create
  dsimp only
  rw [if_neg (by omega)]
  exact ⟨rfl, _, rfl⟩

/-- Claim C4 witness for the amended statement: delay 1 s, no interval
argument, descriptor 3. -/
theorem C4_witness :
    numLuaResults (global_create 1 none ⟨100, 0⟩ 3 0) = 1 ∧
    ∃ st : KernelTimer,
      global_create 1 none ⟨100, 0⟩ 3 0 = CreateResult.ok ⟨3⟩ st :=
  C4_create_success_single_result 1 none ⟨100, 0⟩ 3 0 (by decide)

end Timerfd
